import Mathlib

/-!
Verification of the bad_apple_stm32 core: a shallow embedding in Lean 4 of
the A/V synchronizer (`av_sync.c`), the audio DMA handler (`audio_dac.c`),
the triple-buffered display state (`buffers.h`/`buffers.c`), the minimal
FAT32 reader (`fatfs.c`) and the media positioner (`media_file_reader.c`),
together with theorems settling the spec's claims about them.

Machine integers are modelled as `Nat`/`Int`; 32-bit wraparound is written
explicitly as `% 2^32` (`u32`) at the operations where the C code performs
`uint32_t` arithmetic that can overflow, and the `uint32_t → int32_t` casts
of `av_sync.c` are modelled by `toInt32` (two's-complement wrap, as produced
by the target's arm-none-eabi-gcc).
-/

namespace BadApple

/-- `uint32_t` wraparound. -/
def u32 (n : Nat) : Nat := n % 4294967296

/-- The C cast `(int32_t)x` of a `uint32_t` value, two's-complement. -/
def toInt32 (n : Nat) : Int :=
  if n % 4294967296 < 2147483648 then ((n % 4294967296 : Nat) : Int)
  else ((n % 4294967296 : Nat) : Int) - 4294967296

/- ===================== A/V synchronizer (av_sync.c) ===================== -/

/-- `AVSync_State` from `av_sync.h`. -/
inductive AVSync_State where
  | reset | ready | running | stopped
deriving DecidableEq, Repr

/-- `AVSync_Decision` from `av_sync.h`. -/
inductive AVSync_Decision where
  | not_started | render_frame | skip_frame | repeat_frame
deriving DecidableEq, Repr

/-- `AVSync_Stats` from `av_sync.h` (`max_drift`/`min_drift` are `int32_t`). -/
structure AVSync_Stats where
  frames_skipped : Nat
  frames_repeated : Nat
  max_drift : Int
  min_drift : Int
deriving DecidableEq, Repr

/-- `AVSync_Handle` from `av_sync.h`. -/
structure AVSync_Handle where
  audio_sample_rate : Nat
  video_fps : Nat
  samples_per_frame : Nat
  max_drift_frames : Nat
  state : AVSync_State
  audio_samples_played : Nat
  video_frames_rendered : Nat
  stats : AVSync_Stats
  initialized : Bool
deriving DecidableEq, Repr

/-- `AVSync_Init`: on bad parameters the handle is left untouched;
otherwise everything is cleared and the configuration installed. -/
def AVSync_Init (s : AVSync_Handle) (sample_rate video_fps max_drift : Nat) :
    AVSync_Handle :=
  if sample_rate = 0 ∨ video_fps = 0 then s
  else
    { audio_sample_rate := sample_rate
      video_fps := video_fps
      samples_per_frame := sample_rate / video_fps
      max_drift_frames := if max_drift > 0 then max_drift else 2
      state := .ready
      audio_samples_played := 0
      video_frames_rendered := 0
      stats := ⟨0, 0, 0, 0⟩
      initialized := true }

/-- `AVSync_Start`: reset playback counters and statistics, enter RUNNING. -/
def AVSync_Start (s : AVSync_Handle) : AVSync_Handle :=
  if ¬s.initialized then s
  else
    { s with
      audio_samples_played := 0
      video_frames_rendered := 0
      stats := ⟨0, 0, 0, 0⟩
      state := .running }

/-- `AVSync_Stop`. -/
def AVSync_Stop (s : AVSync_Handle) : AVSync_Handle :=
  { s with state := .stopped }

/-- `AVSync_AudioTick`: `audio_samples_played += samples` (uint32) while RUNNING. -/
def AVSync_AudioTick (s : AVSync_Handle) (samples : Nat) : AVSync_Handle :=
  if s.state ≠ .running then s
  else { s with audio_samples_played := u32 (s.audio_samples_played + samples) }

/-- `AVSync_GetFrameDecision`: returns the decision and the handle with its
drift statistics updated. -/
def AVSync_GetFrameDecision (s : AVSync_Handle) :
    AVSync_Decision × AVSync_Handle :=
  if s.state ≠ .running then (.not_started, s)
  else
    let audio_frame := s.audio_samples_played / s.samples_per_frame
    let drift : Int := toInt32 s.video_frames_rendered - toInt32 audio_frame
    let stats' :=
      { s.stats with
        max_drift := if drift > s.stats.max_drift then drift else s.stats.max_drift
        min_drift := if drift < s.stats.min_drift then drift else s.stats.min_drift }
    let s' := { s with stats := stats' }
    if drift < -(toInt32 s.max_drift_frames) then (.skip_frame, s')
    else if drift > toInt32 s.max_drift_frames then (.repeat_frame, s')
    else (.render_frame, s')

/-- `AVSync_FrameRendered`. -/
def AVSync_FrameRendered (s : AVSync_Handle) : AVSync_Handle :=
  { s with video_frames_rendered := u32 (s.video_frames_rendered + 1) }

/-- `AVSync_FrameSkipped`. -/
def AVSync_FrameSkipped (s : AVSync_Handle) : AVSync_Handle :=
  { s with
    video_frames_rendered := u32 (s.video_frames_rendered + 1)
    stats := { s.stats with frames_skipped := u32 (s.stats.frames_skipped + 1) } }

/- ================== Audio DMA handler (audio_dac.c) ==================== -/

/-- `Audio_State` from `audio_dac.h`. -/
inductive Audio_State where
  | reset | ready | playing | error
deriving DecidableEq, Repr

/-- `Audio_BufferHalf` from `audio_dac.h`. -/
inductive Audio_BufferHalf where
  | first_half | second_half
deriving DecidableEq, Repr

/-- `Audio_Stats` from `audio_dac.h`. -/
structure Audio_Stats where
  samples_played : Nat
  refill_count : Nat
  underrun_count : Nat
deriving DecidableEq, Repr

/-- `Audio_Handle` from `audio_dac.h` (the HAL handles and the static DMA
buffers are not part of the bookkeeping state the claims concern). -/
structure Audio_Handle where
  avsync : Option AVSync_Handle
  needs_refill : Bool
  fill_half : Audio_BufferHalf
  state : Audio_State
  stats : Audio_Stats
  initialized : Bool
deriving DecidableEq, Repr

/-- `AUDIO_HALF_BUFFER_SAMPLES` (= `AUDIO_BUFFER_SAMPLES` = 2048). -/
def AUDIO_HALF_BUFFER_SAMPLES : Nat := 2048

/-- `audio_HandleDMA` from `audio_dac.c`: sets `fill_half` and
`needs_refill`, ticks the attached synchronizer, and bumps
`stats.samples_played`.  Nothing else is touched. -/
def audio_HandleDMA (audio : Audio_Handle) (is_half_transfer : Bool) :
    Audio_Handle :=
  if ¬audio.initialized then audio
  else
    { audio with
      fill_half := if is_half_transfer then .first_half else .second_half
      needs_refill := true
      avsync := audio.avsync.map
        (fun s => AVSync_AudioTick s AUDIO_HALF_BUFFER_SAMPLES)
      stats := { audio.stats with
        samples_played :=
          u32 (audio.stats.samples_played + AUDIO_HALF_BUFFER_SAMPLES) } }

/-- `audio_BufferFilled` from `audio_dac.c`. -/
def audio_BufferFilled (audio : Audio_Handle) : Audio_Handle :=
  { audio with
    needs_refill := false
    stats := { audio.stats with refill_count := u32 (audio.stats.refill_count + 1) } }

/- ============ DAC sample conversion (media_file_reader.c) ============== -/

/-- The sample conversion of `Media_ReadAudioStereo`:
`(int32_t)raw * vol / 100` (C division truncates toward zero, `Int.tdiv`)
then `(scaled + 32768) >> 4` (arithmetic shift, `Int.fdiv` by 16). -/
def dacConvert (raw vol : Int) : Int :=
  ((raw * vol).tdiv 100 + 32768).fdiv 16

/-- The C cast `(uint16_t)x` of an `int32_t` value. -/
def u16OfInt (x : Int) : Nat := (x % 65536).toNat

/- ============ Triple-buffered display (buffers.h / buffers.c) =========== -/

/-- `TripleBuffer_State` from `buffers.h`. -/
structure TripleBuffer_State where
  render : Nat
  ready : Nat
  transfer : Nat
  transfer_busy : Bool
  frames_rendered : Nat
  frames_transferred : Nat
deriving DecidableEq, Repr

/-- `g_display_buffers` initial value from `buffers.c`
(`render=0, ready=2, transfer=1`). -/
def displayInit : TripleBuffer_State :=
  { render := 0, ready := 2, transfer := 1, transfer_busy := false
    frames_rendered := 0, frames_transferred := 0 }

/-- `Display_SwapBuffers`: swap `render`/`ready`, bump `frames_rendered`. -/
def Display_SwapBuffers (s : TripleBuffer_State) : TripleBuffer_State :=
  { s with
    ready := s.render
    render := s.ready
    frames_rendered := u32 (s.frames_rendered + 1) }

/-- `Display_HasFrame`. -/
def Display_HasFrame (s : TripleBuffer_State) : Bool :=
  s.frames_transferred < s.frames_rendered

/-- `Display_StartTransfer`: if not busy and a frame is ready, swap
`ready`/`transfer` and set `transfer_busy`. -/
def Display_StartTransfer (s : TripleBuffer_State) : Bool × TripleBuffer_State :=
  if s.transfer_busy then (false, s)
  else if ¬Display_HasFrame s then (false, s)
  else
    (true,
      { s with
        transfer := s.ready
        ready := s.transfer
        transfer_busy := true })

/-- `Display_TransferComplete` (DMA-completion ISR path). -/
def Display_TransferComplete (s : TripleBuffer_State) : TripleBuffer_State :=
  { s with
    transfer_busy := false
    frames_transferred := u32 (s.frames_transferred + 1) }

/-- The operations the foreground / ISR interleaving may apply. -/
inductive DisplayOp where
  | swap | startTransfer | transferComplete
deriving DecidableEq, Repr

def Display_step (s : TripleBuffer_State) : DisplayOp → TripleBuffer_State
  | .swap => Display_SwapBuffers s
  | .startTransfer => (Display_StartTransfer s).2
  | .transferComplete => Display_TransferComplete s

def Display_run (ops : List DisplayOp) : TripleBuffer_State :=
  ops.foldl Display_step displayInit

/- ================= 8.3 filename rendering (fatfs.c) ==================== -/

/-- C `toupper` on an ASCII byte. -/
def toupperByte (c : Nat) : Nat :=
  if 97 ≤ c ∧ c ≤ 122 then c - 32 else c

/-- `FAT_ConvertFilename` from `fatfs.c`.  The input is the C string's
bytes (NUL-terminated in C, list-terminated here); the result is the
11-byte buffer: up to 8 name bytes (stopping at `.`), space padding,
bytes after the first remaining `.`, space padding to 11. -/
def FAT_ConvertFilename (input : List Nat) : List Nat :=
  let name := ((input.takeWhile (fun c => c ≠ 46)).take 8).map toupperByte
  let rest := input.drop ((input.takeWhile (fun c => c ≠ 46)).take 8).length
  let afterDot :=
    match rest.dropWhile (fun c => c ≠ 46) with
    | 46 :: t => t
    | _ => []
  let ext := (afterDot.take 3).map toupperByte
  name ++ List.replicate (8 - name.length) 32 ++
    ext ++ List.replicate (3 - ext.length) 32

/- ================= Block device and FAT32 reader ======================= -/

/-- The SD card as seen through `SD_ReadBlock`/`SD_ReadMultipleBlocks`:
`data sector i` is byte `i` of sector `sector`; `fail sector` says the
read of that sector reports an error. -/
structure SDCard where
  fail : Nat → Bool
  data : Nat → Nat → Nat

/-- One device read issued by the reader. -/
inductive SDOp where
  | single (sector : Nat)
  | multi (sector count : Nat)
deriving DecidableEq, Repr

/-- Number of 512-byte blocks a device read transfers. -/
def sdOpBlocks : SDOp → Nat
  | .single _ => 1
  | .multi _ count => count

/-- `SD_ReadMultipleBlocks` fails iff some sector of the run fails. -/
def sdMultiFail (dev : SDCard) (sector count : Nat) : Bool :=
  (List.range count).any (fun i => dev.fail (sector + i))

/-- `FAT_Status` from `fatfs.h`. -/
inductive FATStatus where
  | ok | error | invalid_param | read | not_found
deriving DecidableEq, Repr

/-- `FAT_Volume` (the parts of `vol->boot` the reader uses past mount). -/
structure FAT_Volume where
  mounted : Bool
  sectors_per_cluster : Nat
  fat_start_sector : Nat
  data_start_sector : Nat
deriving DecidableEq, Repr

/-- Little-endian 16-bit load of two buffer bytes (bytes are `uint8_t`). -/
def le16 (b0 b1 : Nat) : Nat := b0 % 256 + 256 * (b1 % 256)

/-- Little-endian 32-bit load of four buffer bytes (`FAT_Read32`/`Read32LE`). -/
def le32 (b0 b1 b2 b3 : Nat) : Nat :=
  b0 % 256 + 256 * (b1 % 256) + 65536 * (b2 % 256) + 16777216 * (b3 % 256)

/-- `FAT_IsEndOfChain`: `cluster < 2 || cluster >= 0x0FFFFFF8`. -/
def FAT_IsEndOfChain (cluster : Nat) : Bool :=
  cluster < 2 || 268435448 ≤ cluster

/-- `FAT_GetClusterSize`. -/
def FAT_GetClusterSize (vol : FAT_Volume) : Nat :=
  if ¬vol.mounted then 0 else vol.sectors_per_cluster * 512

/-- `FAT_ClusterToSector`: `data_start + (cluster-2) * sectors_per_cluster`
(uint32 arithmetic), 0 when unmounted or `cluster < 2`. -/
def FAT_ClusterToSector (vol : FAT_Volume) (cluster : Nat) : Nat :=
  if ¬vol.mounted ∨ cluster < 2 then 0
  else u32 (vol.data_start_sector + (cluster - 2) * vol.sectors_per_cluster)

/-- Sector of the FAT holding the entry for `cluster`
(`fat_start_sector + (cluster*4)/512`, uint32). -/
def fatEntrySector (vol : FAT_Volume) (cluster : Nat) : Nat :=
  u32 (vol.fat_start_sector + u32 (cluster * 4) / 512)

/-- Byte offset of the FAT entry inside its sector (`(cluster*4) % 512`). -/
def fatEntryOffset (cluster : Nat) : Nat := u32 (cluster * 4) % 512

/-- `FAT_GetNextCluster`: loads the 4-byte FAT32 entry for `cluster` and
masks to 28 bits; 0 on invalid argument or read failure. -/
def FAT_GetNextCluster (dev : SDCard) (vol : FAT_Volume) (cluster : Nat) : Nat :=
  if ¬vol.mounted ∨ cluster < 2 then 0
  else if dev.fail (fatEntrySector vol cluster) then 0
  else
    let s := fatEntrySector vol cluster
    let o := fatEntryOffset cluster
    le32 (dev.data s o) (dev.data s (o + 1)) (dev.data s (o + 2))
      (dev.data s (o + 3)) % 268435456

/-- The device reads that one `FAT_GetNextCluster` call performs. -/
def fatNextOps (dev : SDCard) (vol : FAT_Volume) (cluster : Nat) : List SDOp :=
  if ¬vol.mounted ∨ cluster < 2 then []
  else [.single (fatEntrySector vol cluster)]

/- ================ Media positioner (media_file_reader.c) ================ -/

/-- `MediaFile` from `media_file_reader.h` (the volume pointer is passed
explicitly to the operations instead of being stored). -/
structure MediaFile where
  frame_count : Nat
  audio_size : Nat
  sample_rate : Nat
  channels : Nat
  bits_per_sample : Nat
  first_cluster : Nat
  file_size : Nat
  video_offset : Nat
  audio_offset : Nat
  current_frame : Nat
  current_sample : Nat
  volume_percent : Nat
  is_open : Bool
  cached_cluster : Nat
  cached_cluster_index : Nat
  is_contiguous : Bool
  first_sector : Nat
deriving DecidableEq, Repr

/-- `FAT_FileInfo` from `fatfs.h`. -/
structure FAT_FileInfo where
  first_cluster : Nat
  size : Nat
  attributes : Nat
deriving DecidableEq, Repr

/-- The all-zero `MediaFile` produced by `memset(media, 0, ...)`. -/
def mediaCleared : MediaFile :=
  { frame_count := 0, audio_size := 0, sample_rate := 0, channels := 0
    bits_per_sample := 0, first_cluster := 0, file_size := 0
    video_offset := 0, audio_offset := 0, current_frame := 0
    current_sample := 0, volume_percent := 0, is_open := false
    cached_cluster := 0, cached_cluster_index := 0, is_contiguous := false
    first_sector := 0 }

/-- The cluster-chain walk of `Media_CheckContiguous`: returns `false`
exactly when a gap (`cluster ≠ prev + 1`) is found before end-of-chain or
the safety limit.  The fuel is an upper bound on the iterations; the
caller passes `limit + 2` which the safety break (`count > limit`) keeps
from ever being exhausted. -/
def ccLoop (dev : SDCard) (vol : FAT_Volume) (limit : Nat) :
    Nat → Nat → Nat → Nat → Bool
  | _cluster, _prev, _count, 0 => true
  | cluster, prev, count, fuel + 1 =>
    if FAT_IsEndOfChain cluster then true
    else
      let count' := count + 1
      if count' > 1 ∧ cluster ≠ prev + 1 then false
      else
        let cluster' := FAT_GetNextCluster dev vol cluster
        if count' > limit then true
        else ccLoop dev vol limit cluster' cluster count' fuel

/-- `Media_CheckContiguous` from `media_file_reader.c`: walks the chain
from `first_cluster`; on a gap clears `is_contiguous` and `first_sector`;
otherwise (end-of-chain or safety limit `expected_clusters + 10` hit)
marks the file contiguous, records `first_sector` and seeds the forward
cache. -/
def Media_CheckContiguous (dev : SDCard) (vol : FAT_Volume) (media : MediaFile) :
    MediaFile :=
  if ¬media.is_open then media
  else
    let cluster_size := FAT_GetClusterSize vol
    if cluster_size = 0 then media
    else
      let expected := u32 (media.file_size + cluster_size - 1) / cluster_size
      if ccLoop dev vol (expected + 10) media.first_cluster media.first_cluster 0
          (expected + 12) then
        { media with
          is_contiguous := true
          first_sector := FAT_ClusterToSector vol media.first_cluster
          cached_cluster := media.first_cluster
          cached_cluster_index := 0 }
      else
        { media with is_contiguous := false, first_sector := 0 }

/-- The chain walk of `Media_GetClusterAt`
(`for (i = start; i < target && !IsEndOfChain; i++)`). -/
def walkChain (dev : SDCard) (vol : FAT_Volume) :
    Nat → Nat → Nat × List SDOp
  | cluster, 0 => (cluster, [])
  | cluster, steps + 1 =>
    if FAT_IsEndOfChain cluster then (cluster, [])
    else
      let ops := fatNextOps dev vol cluster
      let nxt := FAT_GetNextCluster dev vol cluster
      let r := walkChain dev vol nxt steps
      (r.1, ops ++ r.2)

/-- `Media_GetClusterAt`: resolve the cluster containing `byte_offset`,
resuming from the forward cache when possible, and update the cache. -/
def Media_GetClusterAt (dev : SDCard) (vol : FAT_Volume) (media : MediaFile)
    (byte_offset : Nat) : Nat × MediaFile × List SDOp :=
  let cluster_size := FAT_GetClusterSize vol
  if cluster_size = 0 then (0, media, [])
  else
    let target := byte_offset / cluster_size
    let start :=
      if media.cached_cluster ≠ 0 ∧ media.cached_cluster_index ≤ target then
        (media.cached_cluster, media.cached_cluster_index)
      else (media.first_cluster, 0)
    let r := walkChain dev vol start.1 (target - start.2)
    (r.1,
      { media with cached_cluster := r.1, cached_cluster_index := target },
      r.2)

/-- The loop of `Media_ReadAtContiguous`.  Returns the status, the bytes
delivered to the caller's buffer, and the device reads issued, in order.
Fuel bounds the iterations; each productive iteration consumes at least
one byte of `sz`, so the caller's `sz + 1` is never exhausted (the
degenerate aligned run with `count = 0`, which loops forever in C, burns
fuel without progress). -/
def crLoop (dev : SDCard) (first_sector file_size : Nat) :
    Nat → Nat → Nat → FATStatus × List Nat × List SDOp
  | _off, _sz, 0 => (.ok, [], [])
  | off, sz, fuel + 1 =>
    if sz = 0 ∨ file_size ≤ off then (.ok, [], [])
    else
      let sector := u32 (first_sector + off / 512)
      let so := off % 512
      if so ≠ 0 ∨ sz < 512 then
        -- unaligned or partial sector: single block into the scratch buffer
        if dev.fail sector then (.read, [], [.single sector])
        else
          let tc0 := min sz (512 - so)
          let tc := if file_size < off + tc0 then file_size - off else tc0
          let bytes := (List.range tc).map (fun j => dev.data sector (so + j))
          let r := crLoop dev first_sector file_size (off + tc) (sz - tc) fuel
          (r.1, bytes ++ r.2.1, .single sector :: r.2.2)
      else
        -- aligned whole blocks, capped at MAX_MULTIBLOCK_COUNT = 16
        let sectors_available := (file_size - off) / 512
        let sectors_needed := sz / 512
        let count := min (min sectors_needed sectors_available) 16
        if 1 < count then
          if sdMultiFail dev sector count then (.read, [], [.multi sector count])
          else
            let bytes := (List.range (count * 512)).map
              (fun j => dev.data (sector + j / 512) (j % 512))
            let r := crLoop dev first_sector file_size (off + count * 512)
              (sz - count * 512) fuel
            (r.1, bytes ++ r.2.1, .multi sector count :: r.2.2)
        else
          if dev.fail sector then (.read, [], [.single sector])
          else
            let bytes := (List.range 512).map (fun j => dev.data sector j)
            let r := crLoop dev first_sector file_size (off + count * 512)
              (sz - count * 512) fuel
            (r.1, bytes ++ r.2.1, .single sector :: r.2.2)

/-- `Media_ReadAtContiguous`. -/
def Media_ReadAtContiguous (dev : SDCard) (media : MediaFile)
    (offset size : Nat) : FATStatus × List Nat × List SDOp :=
  crLoop dev media.first_sector media.file_size offset size (size + 1)

/-- The loop of `Media_ReadAtFragmented`. -/
def frLoop (dev : SDCard) (vol : FAT_Volume) :
    MediaFile → Nat → Nat → Nat → FATStatus × MediaFile × List Nat × List SDOp
  | media, _off, _sz, 0 => (.ok, media, [], [])
  | media, off, sz, fuel + 1 =>
    if sz = 0 ∨ media.file_size ≤ off then (.ok, media, [], [])
    else
      let cluster_size := FAT_GetClusterSize vol
      let g := Media_GetClusterAt dev vol media off
      let cluster := g.1
      let media' := g.2.1
      if FAT_IsEndOfChain cluster then (.ok, media', [], g.2.2)
      else
        let oic := off % cluster_size
        let sector := u32 (FAT_ClusterToSector vol cluster + oic / 512)
        let so := oic % 512
        if dev.fail sector then (.read, media', [], g.2.2 ++ [.single sector])
        else
          let tc0 := min sz (512 - so)
          let tc := if media'.file_size < off + tc0 then media'.file_size - off else tc0
          let bytes := (List.range tc).map (fun j => dev.data sector (so + j))
          let r := frLoop dev vol media' (off + tc) (sz - tc) fuel
          (r.1, r.2.1, bytes ++ r.2.2.1, g.2.2 ++ .single sector :: r.2.2.2)

/-- `Media_ReadAtFragmented`. -/
def Media_ReadAtFragmented (dev : SDCard) (vol : FAT_Volume) (media : MediaFile)
    (offset size : Nat) : FATStatus × MediaFile × List Nat × List SDOp :=
  if FAT_GetClusterSize vol = 0 then (.error, media, [], [])
  else frLoop dev vol media offset size (size + 1)

/-- `Media_ReadAt`: path selection. -/
def Media_ReadAt (dev : SDCard) (vol : FAT_Volume) (media : MediaFile)
    (offset size : Nat) : FATStatus × MediaFile × List Nat × List SDOp :=
  if ¬media.is_open then (.invalid_param, media, [], [])
  else if media.is_contiguous ∧ media.first_sector ≠ 0 then
    let r := Media_ReadAtContiguous dev media offset size
    (r.1, media, r.2.1, r.2.2)
  else Media_ReadAtFragmented dev vol media offset size

/-- `Media_Open` from `media_file_reader.c`: validate, clear the handle,
read and parse the 20-byte header from the file's first sector, set the
offsets and defaults, mark open, then try the contiguous fast path. -/
def Media_Open (dev : SDCard) (vol : FAT_Volume) (media : MediaFile)
    (info : FAT_FileInfo) : FATStatus × MediaFile :=
  if ¬vol.mounted then (.invalid_param, media)
  else
    let m0 := { mediaCleared with
      first_cluster := info.first_cluster, file_size := info.size }
    let fs := FAT_ClusterToSector vol info.first_cluster
    if dev.fail fs then (.read, m0)
    else
      let b := dev.data fs
      let fc := le32 (b 0) (b 1) (b 2) (b 3)
      let m1 := { m0 with
        frame_count := fc
        audio_size := le32 (b 4) (b 5) (b 6) (b 7)
        sample_rate := le32 (b 8) (b 9) (b 10) (b 11)
        channels := le32 (b 12) (b 13) (b 14) (b 15)
        bits_per_sample := le32 (b 16) (b 17) (b 18) (b 19)
        video_offset := 20
        audio_offset := u32 (20 + u32 (fc * 1024))
        current_frame := 0
        current_sample := 0
        volume_percent := 50
        is_open := true }
      (.ok, Media_CheckContiguous dev vol m1)

/-- `Media_SetVolume`. -/
def Media_SetVolume (media : MediaFile) (percent : Nat) : MediaFile :=
  { media with volume_percent := if percent > 100 then 100 else percent }

/-- `Media_ReadFrameAt`. -/
def Media_ReadFrameAt (dev : SDCard) (vol : FAT_Volume) (media : MediaFile)
    (frame_number : Nat) : FATStatus × MediaFile × List Nat × List SDOp :=
  if ¬media.is_open then (.invalid_param, media, [], [])
  else if media.frame_count ≤ frame_number then (.invalid_param, media, [], [])
  else
    Media_ReadAt dev vol media
      (u32 (media.video_offset + u32 (frame_number * 1024))) 1024

/-- Write `v` into the first `n` entries of a caller buffer, leaving the
rest untouched (the C loops index only `i < n`). -/
def fillPrefix (buf : List Nat) (n v : Nat) : List Nat :=
  List.replicate (min n buf.length) v ++ buf.drop n

/-- Overwrite the leading entries of a caller buffer with `vals`. -/
def writePrefix (buf vals : List Nat) : List Nat :=
  vals.take buf.length ++ buf.drop vals.length

/-- A 16-bit little-endian signed sample from two buffer bytes. -/
def int16OfBytes (b0 b1 : Nat) : Int :=
  let v := le16 b0 b1
  if v < 32768 then (v : Int) else (v : Int) - 65536

/-- `Media_ReadAudioStereo` from `media_file_reader.c`.  Returns the
status, the updated handle, the two caller buffers after the call, and
the device reads issued.  The static stereo scratch `s_audio_buffer` is
modelled by the byte list `Media_ReadAt` delivered (zero-backed where a
short read leaves it stale). -/
def Media_ReadAudioStereo (dev : SDCard) (vol : FAT_Volume) (media : MediaFile)
    (left right : List Nat) (count : Nat) :
    FATStatus × MediaFile × List Nat × List Nat × List SDOp :=
  if ¬media.is_open then (.invalid_param, media, left, right, [])
  else
    let count' := min count 2048
    let total_samples := media.audio_size / 4
    if total_samples ≤ media.current_sample then
      (.ok, media, fillPrefix left count' 2048, fillPrefix right count' 2048, [])
    else
      let to_read := min count' (total_samples - media.current_sample)
      let offset := u32 (media.audio_offset + u32 (media.current_sample * 4))
      let r := Media_ReadAt dev vol media offset (to_read * 4)
      let media' := r.2.1
      if r.1 ≠ .ok then
        (.read, media', fillPrefix left count' 2048, fillPrefix right count' 2048,
          r.2.2.2)
      else
        let data := r.2.2.1
        let lvals :=
          ((List.range to_read).map fun i =>
            u16OfInt (dacConvert (int16OfBytes (data.getD (4 * i) 0)
              (data.getD (4 * i + 1) 0)) (media'.volume_percent : Int))) ++
          List.replicate (count' - to_read) 2048
        let rvals :=
          ((List.range to_read).map fun i =>
            u16OfInt (dacConvert (int16OfBytes (data.getD (4 * i + 2) 0)
              (data.getD (4 * i + 3) 0)) (media'.volume_percent : Int))) ++
          List.replicate (count' - to_read) 2048
        (.ok,
          { media' with current_sample := u32 (media'.current_sample + to_read) },
          writePrefix left lvals, writePrefix right rvals, r.2.2.2)

/- ================== Synchronizer operation sequences =================== -/

/-- The synchronizer operations of the claim set. -/
inductive AVOp where
  | tick (n : Nat) | getDecision | frameRendered | frameSkipped | start | stop
deriving DecidableEq, Repr

def AVSync_step (s : AVSync_Handle) : AVOp → AVSync_Handle
  | .tick n => AVSync_AudioTick s n
  | .getDecision => (AVSync_GetFrameDecision s).2
  | .frameRendered => AVSync_FrameRendered s
  | .frameSkipped => AVSync_FrameSkipped s
  | .start => AVSync_Start s
  | .stop => AVSync_Stop s

def AVSync_run (s : AVSync_Handle) (ops : List AVOp) : AVSync_Handle :=
  ops.foldl AVSync_step s

/-- Total number of samples deposited by the `tick` operations of a
sequence. -/
def ticksTotal : List AVOp → Nat
  | [] => 0
  | .tick n :: rest => n + ticksTotal rest
  | _ :: rest => ticksTotal rest

/- ============== Concrete inputs used by witnesses and
   counterexamples ==================================== -/

/-- A RUNNING synchronizer whose `video_frames_rendered` does not fit in
`int32_t` (every field value is allowed by the claim's quantification). -/
def c2CexState : AVSync_Handle :=
  { audio_sample_rate := 32000, video_fps := 30, samples_per_frame := 1
    max_drift_frames := 2, state := .running, audio_samples_played := 0
    video_frames_rendered := 2147483648, stats := ⟨0, 0, 0, 0⟩
    initialized := true }

/-- A RUNNING synchronizer in a realistic configuration
(32 kHz, 30 fps, 8192 samples played, 4 frames rendered). -/
def c2WitState : AVSync_Handle :=
  { audio_sample_rate := 32000, video_fps := 30, samples_per_frame := 1066
    max_drift_frames := 2, state := .running, audio_samples_played := 8192
    video_frames_rendered := 4, stats := ⟨0, 0, 0, 0⟩
    initialized := true }

/-- A RUNNING synchronizer with 100 samples already counted. -/
def c9CexState : AVSync_Handle :=
  { audio_sample_rate := 32000, video_fps := 30, samples_per_frame := 1066
    max_drift_frames := 2, state := .running, audio_samples_played := 100
    video_frames_rendered := 0, stats := ⟨0, 0, 0, 0⟩
    initialized := true }

/-- A READY (not RUNNING) synchronizer. -/
def c9ReadyState : AVSync_Handle :=
  { audio_sample_rate := 32000, video_fps := 30, samples_per_frame := 1066
    max_drift_frames := 2, state := .ready, audio_samples_played := 100
    video_frames_rendered := 0, stats := ⟨0, 0, 0, 0⟩
    initialized := true }

/-- A start-free operation sequence. -/
def c9WitOps : List AVOp :=
  [.tick 2048, .getDecision, .frameRendered, .tick 2048, .frameSkipped, .stop]

/-- A device on which every read succeeds and every byte is 0. -/
def zeroDev : SDCard := { fail := fun _ => false, data := fun _ _ => 0 }

/-- A device on which every read fails. -/
def failDev : SDCard := { fail := fun _ => true, data := fun _ _ => 0 }

/-- A mounted volume (8 sectors per cluster). -/
def volMounted : FAT_Volume :=
  { mounted := true, sectors_per_cluster := 8, fat_start_sector := 32
    data_start_sector := 100 }

/-- An unmounted volume. -/
def volUnmounted : FAT_Volume :=
  { mounted := false, sectors_per_cluster := 8, fat_start_sector := 32
    data_start_sector := 100 }

/-- An open media handle positioned at (or past) the end of its audio:
100 stereo samples of audio, 100 already played. -/
def c8Media : MediaFile :=
  { mediaCleared with is_open := true, audio_size := 400, current_sample := 100 }

/-- A handle that a previous `Media_Open` left open. -/
def c10OpenMedia : MediaFile := { mediaCleared with is_open := true }

/-- Directory-lookup result for the media file. -/
def c10Info : FAT_FileInfo :=
  { first_cluster := 3, size := 50260, attributes := 0 }

/-- FAT content (cluster → next cluster) of a chain `2 → 3 → … → 13 →
100 → end-of-chain`: twelve consecutive clusters and then a gap. -/
def c3NextVal (c : Nat) : Nat :=
  if 2 ≤ c ∧ c ≤ 12 then c + 1
  else if c = 13 then 100
  else if c = 100 then 268435448
  else 0

/-- A device whose FAT sectors (starting at sector 0) encode `c3NextVal`
little-endian, 4 bytes per entry. -/
def c3Dev : SDCard :=
  { fail := fun _ => false
    data := fun s i => c3NextVal ((s * 512 + i) / 4) / 256 ^ (i % 4) % 256 }

/-- Volume for the contiguity tests: FAT at sector 0, one sector per
cluster, data area at sector 1000. -/
def c3Vol : FAT_Volume :=
  { mounted := true, sectors_per_cluster := 1, fat_start_sector := 0
    data_start_sector := 1000 }

/-- A one-byte file starting at cluster 2 on the gapped chain: the
expected cluster count is 1, so the walker's safety limit (11) stops it
before it reaches the gap at the 13th link. -/
def c3Media : MediaFile :=
  { mediaCleared with is_open := true, first_cluster := 2, file_size := 1 }

/-- A 6144-byte file starting at cluster 2 on the gapped chain: 12
expected clusters, so the gap `13 → 100` lies within the safety limit. -/
def c3MediaGap : MediaFile :=
  { mediaCleared with is_open := true, first_cluster := 2, file_size := 6144 }

/-- FAT content of the fully consecutive chain `5 → 6 → 7 → 8 →
end-of-chain`. -/
def c3ConsecNextVal (c : Nat) : Nat :=
  if 5 ≤ c ∧ c ≤ 7 then c + 1
  else if c = 8 then 268435448
  else 0

/-- Device encoding `c3ConsecNextVal` as the FAT. -/
def c3ConsecDev : SDCard :=
  { fail := fun _ => false
    data := fun s i => c3ConsecNextVal ((s * 512 + i) / 4) / 256 ^ (i % 4) % 256 }

/-- A 2048-byte file on clusters `5,6,7,8` of `c3Vol` (cluster size 512,
4 expected clusters). -/
def c3MediaConsec : MediaFile :=
  { mediaCleared with is_open := true, first_cluster := 5, file_size := 2048 }

/-- The bytes of a contiguous file starting at sector `first_sector`, at
file offsets `offset, offset+1, …, offset+n-1`, in order. -/
def fileBytes (dev : SDCard) (first_sector offset n : Nat) : List Nat :=
  (List.range n).map
    (fun p => dev.data (first_sector + (offset + p) / 512) ((offset + p) % 512))

/-- An open contiguous 2 MiB media file starting at sector 100. -/
def c6Media : MediaFile :=
  { mediaCleared with
    is_open := true, is_contiguous := true, first_sector := 100
    file_size := 2097152 }

/- ======================================================================= -/
/- Theorems                                                                -/
/- ======================================================================= -/

theorem u32_eq_of_lt {n : Nat} (h : n < 4294967296) : u32 n = n :=
  Nat.mod_eq_of_lt h

theorem toInt32_eq_of_lt {n : Nat} (h : n < 2147483648) : toInt32 n = (n : Int) := by
  unfold toInt32
  rw [Nat.mod_eq_of_lt (by omega)]
  simp [h]

/-- C1: the spec says the DMA interrupt handler increments
`stats.underrun_count` when `needs_refill` is still set; in the code the
handler (`audio_HandleDMA`, reached from both the half-complete and the
transfer-complete callback) never touches `underrun_count` — the counter
is declared, displayed, but incremented nowhere.  Whatever the handle's
state (in particular when `needs_refill = true` at interrupt time),
`underrun_count` is unchanged. -/
theorem c1_underrun_count_never_incremented (audio : Audio_Handle)
    (is_half_transfer : Bool) :
    (audio_HandleDMA audio is_half_transfer).stats.underrun_count =
      audio.stats.underrun_count := by
  unfold audio_HandleDMA
  split <;> rfl

/-- C7: for every signed 16-bit sample `s` and volume `v ∈ [0,100]`, the
conversion `((s * v) / 100 + 32768) >> 4` of `Media_ReadAudioStereo`
(`dacConvert`) lands in `[0, 4095]`, and `s = 0` at `v = 100` maps to
`0x800 = 2048`. -/
theorem c7_dac_conversion_range (s v : Int)
    (hs1 : -32768 ≤ s) (hs2 : s ≤ 32767) (hv1 : 0 ≤ v) (hv2 : v ≤ 100) :
    (0 ≤ dacConvert s v ∧ dacConvert s v ≤ 4095) ∧ dacConvert 0 100 = 2048 := by
  have hp1 : -3276800 ≤ s * v := by nlinarith
  have hp2 : s * v ≤ 3276700 := by nlinarith
  have ht : -32768 ≤ (s * v).tdiv 100 ∧ (s * v).tdiv 100 ≤ 32767 := by
    rcases le_or_lt 0 (s * v) with h | h
    · rw [Int.tdiv_eq_ediv h (by norm_num)]
      omega
    · obtain ⟨n, hn⟩ : ∃ n : Nat, s * v = -(n : Int) :=
        ⟨(s * v).natAbs, by omega⟩
      have hb : n ≤ 3276800 := by omega
      have hq : n / 100 ≤ 32768 := by omega
      rw [hn, Int.neg_tdiv]
      have : ((n : Int)).tdiv 100 = ((n / 100 : Nat) : Int) :=
        (Int.ofNat_tdiv n 100).symm
      rw [this]
      omega
  refine ⟨?_, by decide⟩
  unfold dacConvert
  rw [Int.fdiv_eq_ediv _ (by norm_num)]
  omega

/-- C7 witness: the theorem applied at `s = -32768`, `v = 100`. -/
theorem c7_dac_conversion_range_witness :
    (0 ≤ dacConvert (-32768) 100 ∧ dacConvert (-32768) 100 ≤ 4095) ∧
      dacConvert 0 100 = 2048 :=
  c7_dac_conversion_range (-32768) 100 (by decide) (by decide) (by decide)
    (by decide)

/-- C2 counterexample: the code computes the drift with `uint32 → int32`
casts, so with `video_frames_rendered = 2^31` (a value the claim's "any
values" quantification allows), `samples_per_frame = 1`, `max_drift = 2`
and no samples played, the mathematical drift is `2^31 > 2` — the claim
demands REPEAT — but the cast wraps the drift to `-2^31` and the code
returns SKIP. -/
theorem c2_sync_decision_counterexample :
    c2CexState.state = .running ∧
    (c2CexState.max_drift_frames : Int) <
      (c2CexState.video_frames_rendered : Int) -
        ((c2CexState.audio_samples_played / c2CexState.samples_per_frame : Nat) : Int) ∧
    (AVSync_GetFrameDecision c2CexState).1 = .skip_frame := by
  decide

/-- C2 amended: the decision law holds whenever `video_frames_rendered`,
`audio_samples_played / samples_per_frame` and `max_drift_frames` are
below `2^31`, i.e. whenever the `(int32_t)` casts in
`AVSync_GetFrameDecision` do not wrap: in RUNNING state the decision is
RENDER iff `|frames − samples/S| ≤ D` (truncating division, inclusive
band), SKIP iff the drift is `< −D`, REPEAT iff it is `> D`; in any
non-RUNNING state the decision is NOT_STARTED. -/
theorem c2_sync_decision_law (s : AVSync_Handle)
    (hS : 0 < s.samples_per_frame)
    (hv : s.video_frames_rendered < 2147483648)
    (ha : s.audio_samples_played / s.samples_per_frame < 2147483648)
    (hD : s.max_drift_frames < 2147483648) :
    (s.state = .running →
      (((AVSync_GetFrameDecision s).1 = .render_frame ↔
          |(s.video_frames_rendered : Int) -
            ((s.audio_samples_played / s.samples_per_frame : Nat) : Int)| ≤
            (s.max_drift_frames : Int)) ∧
        ((AVSync_GetFrameDecision s).1 = .skip_frame ↔
          (s.video_frames_rendered : Int) -
            ((s.audio_samples_played / s.samples_per_frame : Nat) : Int) <
            -(s.max_drift_frames : Int)) ∧
        ((AVSync_GetFrameDecision s).1 = .repeat_frame ↔
          (s.max_drift_frames : Int) <
            (s.video_frames_rendered : Int) -
              ((s.audio_samples_played / s.samples_per_frame : Nat) : Int)))) ∧
    (s.state ≠ .running → (AVSync_GetFrameDecision s).1 = .not_started) := by
  unfold AVSync_GetFrameDecision
  constructor
  · intro hrun
    rw [if_neg (by simp [hrun])]
    simp only [toInt32_eq_of_lt hv, toInt32_eq_of_lt ha, toInt32_eq_of_lt hD,
      apply_ite Prod.fst]
    split_ifs with h1 h2 <;> refine ⟨?_, ?_, ?_⟩ <;> simp [abs_le] <;> omega
  · intro h
    simp [h]

/-- C2 witness: the amended law applied to a concrete RUNNING
synchronizer (32 kHz / 30 fps, 8192 samples played, 4 frames rendered). -/
theorem c2_sync_decision_law_witness :
    (0 < c2WitState.samples_per_frame ∧
      c2WitState.video_frames_rendered < 2147483648 ∧
      c2WitState.audio_samples_played / c2WitState.samples_per_frame < 2147483648 ∧
      c2WitState.max_drift_frames < 2147483648) ∧
    ((c2WitState.state = .running →
      (((AVSync_GetFrameDecision c2WitState).1 = .render_frame ↔
          |(c2WitState.video_frames_rendered : Int) -
            ((c2WitState.audio_samples_played / c2WitState.samples_per_frame : Nat) : Int)| ≤
            (c2WitState.max_drift_frames : Int)) ∧
        ((AVSync_GetFrameDecision c2WitState).1 = .skip_frame ↔
          (c2WitState.video_frames_rendered : Int) -
            ((c2WitState.audio_samples_played / c2WitState.samples_per_frame : Nat) : Int) <
            -(c2WitState.max_drift_frames : Int)) ∧
        ((AVSync_GetFrameDecision c2WitState).1 = .repeat_frame ↔
          (c2WitState.max_drift_frames : Int) <
            (c2WitState.video_frames_rendered : Int) -
              ((c2WitState.audio_samples_played / c2WitState.samples_per_frame : Nat) : Int)))) ∧
    (c2WitState.state ≠ .running →
      (AVSync_GetFrameDecision c2WitState).1 = .not_started)) :=
  ⟨⟨by decide, by decide, by decide, by decide⟩,
    c2_sync_decision_law c2WitState (by decide) (by decide) (by decide)
      (by decide)⟩

/-- Each display operation preserves distinctness of the three buffer
indices and their range. -/
theorem display_step_preserves_distinct (s : TripleBuffer_State) (op : DisplayOp)
    (h : s.render ≠ s.ready ∧ s.ready ≠ s.transfer ∧ s.render ≠ s.transfer ∧
      s.render < 3 ∧ s.ready < 3 ∧ s.transfer < 3) :
    (Display_step s op).render ≠ (Display_step s op).ready ∧
      (Display_step s op).ready ≠ (Display_step s op).transfer ∧
      (Display_step s op).render ≠ (Display_step s op).transfer ∧
      (Display_step s op).render < 3 ∧ (Display_step s op).ready < 3 ∧
      (Display_step s op).transfer < 3 := by
  obtain ⟨h1, h2, h3, h4, h5, h6⟩ := h
  cases op <;>
    simp only [Display_step, Display_SwapBuffers, Display_StartTransfer,
      Display_TransferComplete] <;>
    (try split_ifs) <;>
    (try dsimp only) <;>
    omega

/-- C4: starting from the initial display-buffer state
(`render=0, ready=2, transfer=1`), after any sequence of `swap_buffers`,
`start_transfer` and `transfer_complete` operations the three indices are
pairwise distinct members of `{0,1,2}` — a permutation of `{0,1,2}`. -/
theorem c4_display_indices_permutation (ops : List DisplayOp) :
    ((Display_run ops).render ≠ (Display_run ops).ready ∧
      (Display_run ops).ready ≠ (Display_run ops).transfer ∧
      (Display_run ops).render ≠ (Display_run ops).transfer) ∧
    (Display_run ops).render < 3 ∧ (Display_run ops).ready < 3 ∧
      (Display_run ops).transfer < 3 := by
  have key : ∀ (l : List DisplayOp) (s : TripleBuffer_State),
      (s.render ≠ s.ready ∧ s.ready ≠ s.transfer ∧ s.render ≠ s.transfer ∧
        s.render < 3 ∧ s.ready < 3 ∧ s.transfer < 3) →
      ((List.foldl Display_step s l).render ≠ (List.foldl Display_step s l).ready ∧
        (List.foldl Display_step s l).ready ≠ (List.foldl Display_step s l).transfer ∧
        (List.foldl Display_step s l).render ≠ (List.foldl Display_step s l).transfer ∧
        (List.foldl Display_step s l).render < 3 ∧
        (List.foldl Display_step s l).ready < 3 ∧
        (List.foldl Display_step s l).transfer < 3) := by
    intro l
    induction l with
    | nil => intro s h; simpa using h
    | cons op rest ih =>
      intro s h
      rw [List.foldl_cons]
      exact ih (Display_step s op) (display_step_preserves_distinct s op h)
  have h0 := key ops displayInit (by decide)
  unfold Display_run
  exact ⟨⟨h0.1, h0.2.1, h0.2.2.1⟩, h0.2.2.2⟩

/-- The drift-statistics update of `AVSync_GetFrameDecision` does not
change `audio_samples_played`. -/
theorem getDecision_samples_eq (s : AVSync_Handle) :
    ((AVSync_GetFrameDecision s).2).audio_samples_played =
      s.audio_samples_played := by
  unfold AVSync_GetFrameDecision
  dsimp only
  split_ifs <;> rfl

/-- C9 counterexample: with the synchronizer RUNNING and 100 samples
counted, the single-operation sequence `[start]` (one of the operations
the claim lists) leaves the state RUNNING before and after, yet
`audio_samples_played` drops from 100 to 0 — `AVSync_Start` resets the
counter. -/
theorem c9_samples_monotone_counterexample :
    c9CexState.state = .running ∧
    (AVSync_run c9CexState [.start]).state = .running ∧
    (AVSync_run c9CexState [.start]).audio_samples_played <
      c9CexState.audio_samples_played := by
  decide

/-- C9 amended: across any sequence of the listed operations that
contains no `start` (which resets the counter to 0),
`audio_samples_played` never decreases, provided the 32-bit counter does
not wrap; no operation other than `audio_tick` ever increases it; and
`audio_tick` in any non-RUNNING state leaves it unchanged (so only ticks
delivered while RUNNING increase it). -/
theorem c9_samples_monotone :
    (∀ (s : AVSync_Handle) (ops : List AVOp), AVOp.start ∉ ops →
      s.audio_samples_played + ticksTotal ops < 4294967296 →
      s.audio_samples_played ≤ (AVSync_run s ops).audio_samples_played) ∧
    (∀ (s : AVSync_Handle) (op : AVOp), (∀ n, op ≠ .tick n) →
      (AVSync_step s op).audio_samples_played ≤ s.audio_samples_played) ∧
    (∀ (s : AVSync_Handle) (n : Nat), s.state ≠ .running →
      (AVSync_step s (.tick n)).audio_samples_played =
        s.audio_samples_played) := by
  refine ⟨?_, ?_, ?_⟩
  · intro s ops
    induction ops generalizing s with
    | nil => intro _ _; exact Nat.le_refl _
    | cons op rest ih =>
      intro hns hbound
      have hns1 : AVOp.start ≠ op := fun he => hns (he ▸ List.mem_cons_self op rest)
      have hns2 : AVOp.start ∉ rest := fun he => hns (List.mem_cons_of_mem op he)
      show s.audio_samples_played ≤
        (AVSync_run (AVSync_step s op) rest).audio_samples_played
      cases op with
      | tick n =>
        have hts : ticksTotal (AVOp.tick n :: rest) = n + ticksTotal rest := rfl
        by_cases hrun : s.state = .running
        · have hstep : (AVSync_step s (.tick n)).audio_samples_played =
              s.audio_samples_played + n := by
            simp only [AVSync_step, AVSync_AudioTick, hrun]
            rw [if_neg (by simp)]
            exact u32_eq_of_lt (by omega)
          have := ih (AVSync_step s (.tick n)) hns2 (by rw [hstep]; omega)
          omega
        · have hstep : AVSync_step s (.tick n) = s := by
            simp only [AVSync_step, AVSync_AudioTick]
            rw [if_pos (by simp [hrun])]
          rw [hstep]
          exact ih s hns2 (by omega)
      | getDecision =>
        have hsame : (AVSync_step s AVOp.getDecision).audio_samples_played =
            s.audio_samples_played := getDecision_samples_eq s
        have h2 := ih (AVSync_step s AVOp.getDecision) hns2
          (by rw [hsame]; exact hbound)
        omega
      | frameRendered =>
        exact ih (AVSync_FrameRendered s) hns2 hbound
      | frameSkipped =>
        exact ih (AVSync_FrameSkipped s) hns2 hbound
      | start => exact absurd rfl hns1
      | stop => exact ih (AVSync_Stop s) hns2 hbound
  · intro s op hop
    cases op with
    | tick n => exact absurd rfl (hop n)
    | getDecision => exact Nat.le_of_eq (getDecision_samples_eq s)
    | frameRendered => exact Nat.le_refl _
    | frameSkipped => exact Nat.le_refl _
    | start =>
      simp only [AVSync_step, AVSync_Start]
      split <;> simp
    | stop => exact Nat.le_refl _
  · intro s n hns
    simp only [AVSync_step, AVSync_AudioTick]
    rw [if_pos (by simpa using hns)]

/-- C9 witness: the amended statement applied at a concrete RUNNING
synchronizer and a concrete start-free operation sequence, at `stop` for
the only-tick-increases part, and at a READY synchronizer for the
tick-outside-RUNNING part. -/
theorem c9_samples_monotone_witness :
    (AVOp.start ∉ c9WitOps ∧
      c9CexState.audio_samples_played + ticksTotal c9WitOps < 4294967296 ∧
      c9CexState.audio_samples_played ≤
        (AVSync_run c9CexState c9WitOps).audio_samples_played) ∧
    (AVSync_step c9CexState .stop).audio_samples_played ≤
      c9CexState.audio_samples_played ∧
    (AVSync_step c9ReadyState (.tick 2048)).audio_samples_played =
      c9ReadyState.audio_samples_played :=
  ⟨⟨by decide, by decide,
      c9_samples_monotone.1 c9CexState c9WitOps (by decide) (by decide)⟩,
    c9_samples_monotone.2.1 c9CexState .stop (fun n => by simp),
    c9_samples_monotone.2.2 c9ReadyState 2048 (by decide)⟩

theorem map_eq_self_of_mem {f : Nat → Nat} {l : List Nat}
    (h : ∀ x ∈ l, f x = x) : l.map f = l := by
  induction l with
  | nil => rfl
  | cons a t ih => simp_all

/-- C5 counterexample: `"BADAPPLE.BIN"` rendered canonically is the
11-byte, uppercase, dot-free `"BADAPPLEBIN"`; feeding that back to
`FAT_ConvertFilename` yields `"BADAPPLE   "` — the extension field is
blanked because the name scan consumes 8 bytes and the extension copy
then looks for a `.` that canonical input does not contain.  So the
function is not idempotent on canonical 8.3 input. -/
theorem c5_convert_filename_counterexample :
    [66, 65, 68, 65, 80, 80, 76, 69, 66, 73, 78].length = 11 ∧
    (∀ c ∈ [66, 65, 68, 65, 80, 80, 76, 69, 66, 73, 78],
      c ≠ 46 ∧ toupperByte c = c) ∧
    FAT_ConvertFilename [66, 65, 68, 65, 80, 80, 76, 69, 66, 73, 78] =
      [66, 65, 68, 65, 80, 80, 76, 69, 32, 32, 32] ∧
    FAT_ConvertFilename [66, 65, 68, 65, 80, 80, 76, 69, 66, 73, 78] ≠
      [66, 65, 68, 65, 80, 80, 76, 69, 66, 73, 78] := by
  decide

/-- C5 amended: `FAT_ConvertFilename` produces exactly 11 bytes on
*every* input (any filename, dotted or not); on an 11-byte canonical
input (uppercase, space-padded, no dot) it returns the 8-byte name
field unchanged with the extension field blanked to spaces — hence it
is idempotent precisely when the input's extension field is already
blank. -/
theorem c5_convert_filename (input : List Nat) :
    (FAT_ConvertFilename input).length = 11 ∧
    (input.length = 11 → (∀ c ∈ input, c ≠ 46) →
      (∀ c ∈ input, toupperByte c = c) →
      FAT_ConvertFilename input = input.take 8 ++ [32, 32, 32] ∧
      (input.drop 8 = [32, 32, 32] → FAT_ConvertFilename input = input)) := by
  constructor
  · unfold FAT_ConvertFilename
    simp only [List.length_append, List.length_replicate, List.length_map,
      List.length_take]
    omega
  · intro hlen hdot hup
    have htw : input.takeWhile (fun c => c ≠ 46) = input := by
      rw [List.takeWhile_eq_self_iff]
      intro x hx
      simpa using hdot x hx
    have hmap : (input.take 8).map toupperByte = input.take 8 :=
      map_eq_self_of_mem (fun x hx => hup x (List.take_subset 8 input hx))
    have hlen8 : (input.take 8).length = 8 := by
      rw [List.length_take]; omega
    have hdw : (input.drop 8).dropWhile (fun c => c ≠ 46) = [] := by
      rw [List.dropWhile_eq_nil_iff]
      intro x hx
      simpa using hdot x (List.drop_subset 8 input hx)
    have hconv : FAT_ConvertFilename input = input.take 8 ++ [32, 32, 32] := by
      unfold FAT_ConvertFilename
      simp only [htw, hmap, hlen8, hdw]
      simp [List.replicate_succ]
    refine ⟨hconv, ?_⟩
    intro hext
    rw [hconv]
    conv_rhs => rw [← List.take_append_drop 8 input]
    rw [hext]

/-- C5 witness: the amended statement applied to the ordinary dotted
filename `"BADAPPLE.BIN"` (length part) and to the canonical
blank-extension name `"BADAPPLE   "`, on which the function is the
identity (canonical part). -/
theorem c5_convert_filename_witness :
    (FAT_ConvertFilename [66, 65, 68, 65, 80, 80, 76, 69, 46, 66, 73, 78]).length
      = 11 ∧
    ([66, 65, 68, 65, 80, 80, 76, 69, 32, 32, 32].length = 11 ∧
      (∀ c ∈ [66, 65, 68, 65, 80, 80, 76, 69, 32, 32, 32], c ≠ 46) ∧
      (∀ c ∈ [66, 65, 68, 65, 80, 80, 76, 69, 32, 32, 32],
        toupperByte c = c)) ∧
    (FAT_ConvertFilename [66, 65, 68, 65, 80, 80, 76, 69, 32, 32, 32] =
        [66, 65, 68, 65, 80, 80, 76, 69, 32, 32, 32].take 8 ++ [32, 32, 32] ∧
      ([66, 65, 68, 65, 80, 80, 76, 69, 32, 32, 32].drop 8 = [32, 32, 32] →
        FAT_ConvertFilename [66, 65, 68, 65, 80, 80, 76, 69, 32, 32, 32] =
          [66, 65, 68, 65, 80, 80, 76, 69, 32, 32, 32])) :=
  ⟨(c5_convert_filename [66, 65, 68, 65, 80, 80, 76, 69, 46, 66, 73, 78]).1,
    ⟨by decide, by decide, by decide⟩,
    (c5_convert_filename [66, 65, 68, 65, 80, 80, 76, 69, 32, 32, 32]).2
      (by decide) (by decide) (by decide)⟩

/-- C8 counterexample: the code clamps `count` to
`MAX_AUDIO_READ_SAMPLES = 2048` before the end-of-audio silence fill, so
a call requesting 2049 entries past end of audio leaves entry 2048 of
the output buffers untouched (here still 7) instead of DAC silence —
"fills every requested entry" fails for `count > 2048`. -/
theorem c8_read_audio_past_end_counterexample :
    c8Media.is_open = true ∧
    c8Media.audio_size / 4 ≤ c8Media.current_sample ∧
    ((Media_ReadAudioStereo zeroDev volMounted c8Media
        (List.replicate 2049 7) (List.replicate 2049 7) 2049).2.2.1).getD 2048 0
      = 7 ∧ (7 : Nat) ≠ 2048 := by
  refine ⟨by decide, by decide, ?_, by decide⟩
  have heq : (Media_ReadAudioStereo zeroDev volMounted c8Media
      (List.replicate 2049 7) (List.replicate 2049 7) 2049).2.2.1 =
      fillPrefix (List.replicate 2049 7) (min 2049 2048) 2048 := by
    unfold Media_ReadAudioStereo
    rw [if_neg (by decide)]
    dsimp only
    rw [if_pos (by decide)]
  rw [heq]
  unfold fillPrefix
  rw [List.length_replicate, List.drop_replicate]
  norm_num

/-- C8 amended: for every open media file, a `read_audio` call with
`current_sample ≥ audio_size/4` fills the first `min(count, 2048)`
requested entries of both output buffers with DAC silence `0x800 = 2048`
(`count` is clamped to `MAX_AUDIO_READ_SAMPLES = 2048`), performs no
block-device I/O, leaves the handle (in particular `current_sample`)
unchanged, and returns OK. -/
theorem c8_read_audio_past_end (dev : SDCard) (vol : FAT_Volume)
    (media : MediaFile) (left right : List Nat) (count : Nat)
    (hopen : media.is_open = true)
    (hpast : media.audio_size / 4 ≤ media.current_sample) :
    Media_ReadAudioStereo dev vol media left right count =
      (.ok, media, fillPrefix left (min count 2048) 2048,
        fillPrefix right (min count 2048) 2048, []) := by
  unfold Media_ReadAudioStereo
  rw [if_neg (by simp [hopen])]
  dsimp only
  rw [if_pos hpast]

/-- C8 witness: the amended statement at a concrete handle (100 of 100
samples played), 3-entry buffers holding 7, and `count = 2`. -/
theorem c8_read_audio_past_end_witness :
    (c8Media.is_open = true ∧ c8Media.audio_size / 4 ≤ c8Media.current_sample) ∧
    Media_ReadAudioStereo zeroDev volMounted c8Media [7, 7, 7] [7, 7, 7] 2 =
      (.ok, c8Media, fillPrefix [7, 7, 7] (min 2 2048) 2048,
        fillPrefix [7, 7, 7] (min 2 2048) 2048, []) :=
  ⟨⟨by decide, by decide⟩,
    c8_read_audio_past_end zeroDev volMounted c8Media [7, 7, 7] [7, 7, 7] 2
      (by decide) (by decide)⟩

/-- C10 counterexample: `Media_Open` validates its parameters before
touching the handle, so a failing open (here: unmounted volume) on a
handle that a previous open had left `is_open = true` returns
INVALID_PARAM but leaves the handle open — the claim's "the media handle
is left with is_open = false" does not hold for this failure. -/
theorem c10_open_failure_counterexample :
    (Media_Open zeroDev volUnmounted c10OpenMedia c10Info).1 = .invalid_param ∧
    (Media_Open zeroDev volUnmounted c10OpenMedia c10Info).2.is_open = true := by
  decide

/-- C10 amended: a parameter-validation failure of `Media_Open`
(unmounted volume) returns INVALID_PARAM with the handle untouched
(so a never-opened handle stays closed); a block-device error while
reading the header sector returns READ with the freshly cleared handle,
hence `is_open = false`; and on every handle with `is_open = false`,
`Media_ReadFrameAt` and `Media_ReadAudioStereo` return INVALID_PARAM
without performing any device read and without modifying anything. -/
theorem c10_open_failure (dev : SDCard) (vol : FAT_Volume) (media : MediaFile)
    (info : FAT_FileInfo) (left right : List Nat) (count frame : Nat) :
    (¬vol.mounted → Media_Open dev vol media info = (.invalid_param, media)) ∧
    (vol.mounted →
      dev.fail (FAT_ClusterToSector vol info.first_cluster) = true →
      (Media_Open dev vol media info).1 = .read ∧
      (Media_Open dev vol media info).2.is_open = false) ∧
    (media.is_open = false →
      Media_ReadFrameAt dev vol media frame = (.invalid_param, media, [], []) ∧
      Media_ReadAudioStereo dev vol media left right count =
        (.invalid_param, media, left, right, [])) := by
  refine ⟨?_, ?_, ?_⟩
  · intro hm
    unfold Media_Open
    rw [if_pos hm]
  · intro hm hf
    unfold Media_Open
    rw [if_neg (by simp [hm])]
    dsimp only
    rw [if_pos hf]
    exact ⟨rfl, rfl⟩
  · intro hcl
    constructor
    · unfold Media_ReadFrameAt
      rw [if_pos (by simp [hcl])]
    · unfold Media_ReadAudioStereo
      rw [if_pos (by simp [hcl])]

/-- C10 witness: the amended statement applied at an unmounted volume
(parameter failure), at a mounted volume with a failing device (header
read failure), and at a closed handle for the two read entry points. -/
theorem c10_open_failure_witness :
    Media_Open zeroDev volUnmounted c10OpenMedia c10Info =
      (.invalid_param, c10OpenMedia) ∧
    ((Media_Open failDev volMounted c10OpenMedia c10Info).1 = .read ∧
      (Media_Open failDev volMounted c10OpenMedia c10Info).2.is_open = false) ∧
    (Media_ReadFrameAt zeroDev volMounted mediaCleared 0 =
        (.invalid_param, mediaCleared, [], []) ∧
      Media_ReadAudioStereo zeroDev volMounted mediaCleared [7] [7] 1 =
        (.invalid_param, mediaCleared, [7], [7], [])) :=
  ⟨(c10_open_failure zeroDev volUnmounted c10OpenMedia c10Info [] [] 0 0).1
      (by decide),
    (c10_open_failure failDev volMounted c10OpenMedia c10Info [] [] 0 0).2.1
      (by decide) (by decide),
    (c10_open_failure zeroDev volMounted mediaCleared c10Info [7] [7] 1 0).2.2
      (by decide)⟩

/-- The contiguity walk returns `true` whenever the current cluster is
end-of-chain, for every fuel value. -/
theorem ccLoop_eoc (dev : SDCard) (vol : FAT_Volume)
    (limit cluster prev count fuel : Nat)
    (h : FAT_IsEndOfChain cluster = true) :
    ccLoop dev vol limit cluster prev count fuel = true := by
  cases fuel with
  | zero => rfl
  | succ f => rw [ccLoop, if_pos h]

/-- Along a consecutive chain `c, c+1, …, c+k-1` (then end-of-chain) the
contiguity walk never reports a gap: from any position `j < k` it
returns `true`. -/
theorem ccLoop_consec_true (dev : SDCard) (vol : FAT_Volume)
    {limit c k : Nat} (hk : 1 ≤ k)
    (hchain : ∀ i, i < k - 1 →
      FAT_GetNextCluster dev vol (c + i) = c + i + 1)
    (hne : ∀ i, i < k → FAT_IsEndOfChain (c + i) = false)
    (hend : FAT_IsEndOfChain (FAT_GetNextCluster dev vol (c + (k - 1))) = true) :
    ∀ fuel j prev, j < k → (1 ≤ j → prev + 1 = c + j) →
      ccLoop dev vol limit (c + j) prev j fuel = true := by
  intro fuel
  induction fuel with
  | zero => intro j prev _ _; rfl
  | succ f ih =>
    intro j prev hj hprev
    rw [ccLoop, if_neg (by simp [hne j hj])]
    try dsimp only
    rw [if_neg (fun hc => hc.2 (hprev (by omega)).symm)]
    try dsimp only
    by_cases hlim : j + 1 > limit
    · rw [if_pos hlim]
    · rw [if_neg hlim]
      by_cases hjk : j + 1 < k
      · rw [hchain j (by omega)]
        exact ih (j + 1) (c + j) hjk (fun _ => rfl)
      · have hj' : j = k - 1 := by omega
        apply ccLoop_eoc
        rw [hj']
        exact hend

/-- If the chain from `c` is consecutive up to position `g - 1` but the
`g`-th link jumps to `d ≠ c + g` (with `d` not end-of-chain) and
`g ≤ limit`, the contiguity walk reports the gap: it returns `false`. -/
theorem ccLoop_gap_false (dev : SDCard) (vol : FAT_Volume)
    {limit c g d : Nat} (hg : 1 ≤ g) (hglim : g ≤ limit)
    (hchain : ∀ i, i < g - 1 →
      FAT_GetNextCluster dev vol (c + i) = c + i + 1)
    (hne : ∀ i, i < g → FAT_IsEndOfChain (c + i) = false)
    (hd : FAT_GetNextCluster dev vol (c + (g - 1)) = d)
    (hdne : FAT_IsEndOfChain d = false)
    (hgap : d ≠ c + g) :
    ∀ fuel j prev, j < g → g + 1 - j ≤ fuel → (1 ≤ j → prev + 1 = c + j) →
      ccLoop dev vol limit (c + j) prev j fuel = false := by
  intro fuel
  induction fuel with
  | zero => intro j prev hj hf _; omega
  | succ f ih =>
    intro j prev hj hf hprev
    rw [ccLoop, if_neg (by simp [hne j hj])]
    try dsimp only
    rw [if_neg (fun hc => hc.2 (hprev (by omega)).symm)]
    try dsimp only
    rw [if_neg (show ¬j + 1 > limit by omega)]
    by_cases hjg : j + 1 < g
    · rw [hchain j (by omega)]
      exact ih (j + 1) (c + j) hjg (by omega) (fun _ => rfl)
    · have hj' : j = g - 1 := by omega
      subst hj'
      rw [hd]
      cases f with
      | zero => omega
      | succ f2 =>
        rw [ccLoop, if_neg (by simp [hdne])]
        try dsimp only
        rw [if_pos ⟨by omega, fun he => hgap (by omega)⟩]

/-- C3 counterexample: on the FAT whose chain from `first_cluster = 2`
is `2,3,…,13` (consecutive) followed by the gap `13 → 100` (with 100 not
end-of-chain), a one-byte file makes the safety limit
`expected_clusters + 10 = 11` stop the walk before the gap, and the
detector reports `is_contiguous = true` with a nonzero `first_sector` —
the claim's "if any adjacent pair in the chain differs by other than +1,
it sets is_contiguous = false and first_sector = 0" fails. -/
theorem c3_check_contiguous_counterexample :
    (∀ i, i < 11 → FAT_GetNextCluster c3Dev c3Vol (2 + i) = 2 + i + 1) ∧
    FAT_GetNextCluster c3Dev c3Vol 13 = 100 ∧
    (100 : Nat) ≠ 13 + 1 ∧
    FAT_IsEndOfChain 100 = false ∧
    (Media_CheckContiguous c3Dev c3Vol c3Media).is_contiguous = true ∧
    (Media_CheckContiguous c3Dev c3Vol c3Media).first_sector = 1000 := by
  refine ⟨by decide, by decide, by decide, by decide, ?_, ?_⟩ <;> decide

/-- C3 amended: for every FAT whose cluster chain from `first_cluster`
is exactly `c, c+1, …, c+k-1` followed by end-of-chain, the detector
sets `is_contiguous = true`, `first_sector = cluster_to_sector(c)` and
seeds the forward cache with `(c, 0)`; and if an adjacent pair differs
by other than `+1` at chain position `g` *within the walker's safety
limit* (`g ≤ expected_clusters + 10`), it sets `is_contiguous = false`
and `first_sector = 0`.  (A gap past the safety limit is not detected —
see the counterexample.) -/
theorem c3_check_contiguous (dev : SDCard) (vol : FAT_Volume)
    (media : MediaFile) (hopen : media.is_open = true)
    (hcs : FAT_GetClusterSize vol ≠ 0) :
    (∀ k : Nat, 1 ≤ k →
      (∀ i, i < k - 1 → FAT_GetNextCluster dev vol (media.first_cluster + i) =
        media.first_cluster + i + 1) →
      (∀ i, i < k → FAT_IsEndOfChain (media.first_cluster + i) = false) →
      FAT_IsEndOfChain
        (FAT_GetNextCluster dev vol (media.first_cluster + (k - 1))) = true →
      Media_CheckContiguous dev vol media =
        { media with
          is_contiguous := true
          first_sector := FAT_ClusterToSector vol media.first_cluster
          cached_cluster := media.first_cluster
          cached_cluster_index := 0 }) ∧
    (∀ g d : Nat, 1 ≤ g →
      g ≤ u32 (media.file_size + FAT_GetClusterSize vol - 1) /
        FAT_GetClusterSize vol + 10 →
      (∀ i, i < g - 1 → FAT_GetNextCluster dev vol (media.first_cluster + i) =
        media.first_cluster + i + 1) →
      (∀ i, i < g → FAT_IsEndOfChain (media.first_cluster + i) = false) →
      FAT_GetNextCluster dev vol (media.first_cluster + (g - 1)) = d →
      FAT_IsEndOfChain d = false →
      d ≠ media.first_cluster + g →
      Media_CheckContiguous dev vol media =
        { media with is_contiguous := false, first_sector := 0 }) := by
  constructor
  · intro k hk hchain hne hend
    have hloop := @ccLoop_consec_true dev vol
      (u32 (media.file_size + FAT_GetClusterSize vol - 1) /
        FAT_GetClusterSize vol + 10) media.first_cluster k hk hchain hne hend
      (u32 (media.file_size + FAT_GetClusterSize vol - 1) /
        FAT_GetClusterSize vol + 12) 0 media.first_cluster
      (by omega) (fun h => absurd h (by omega))
    simp only [Nat.add_zero] at hloop
    unfold Media_CheckContiguous
    rw [if_neg (by simp [hopen])]
    try dsimp only
    rw [if_neg hcs, if_pos hloop]
  · intro g d hg hglim hchain hne hd hdne hgap
    have hloop := @ccLoop_gap_false dev vol
      (u32 (media.file_size + FAT_GetClusterSize vol - 1) /
        FAT_GetClusterSize vol + 10) media.first_cluster g d hg hglim hchain
      hne hd hdne hgap
      (u32 (media.file_size + FAT_GetClusterSize vol - 1) /
        FAT_GetClusterSize vol + 12) 0 media.first_cluster
      (by omega) (by omega) (fun h => absurd h (by omega))
    simp only [Nat.add_zero] at hloop
    unfold Media_CheckContiguous
    rw [if_neg (by simp [hopen])]
    try dsimp only
    rw [if_neg hcs, if_neg (by simp [hloop])]

/-- C3 witness: the amended statement applied (first part) to the
consecutive chain `5,6,7,8` and (second part) to the chain with the gap
`13 → 100` at position 12 of a 12-cluster file, both on `c3Vol`. -/
theorem c3_check_contiguous_witness :
    (c3MediaConsec.is_open = true ∧ FAT_GetClusterSize c3Vol ≠ 0 ∧
      c3MediaGap.is_open = true) ∧
    Media_CheckContiguous c3ConsecDev c3Vol c3MediaConsec =
      { c3MediaConsec with
        is_contiguous := true
        first_sector := FAT_ClusterToSector c3Vol c3MediaConsec.first_cluster
        cached_cluster := c3MediaConsec.first_cluster
        cached_cluster_index := 0 } ∧
    Media_CheckContiguous c3Dev c3Vol c3MediaGap =
      { c3MediaGap with is_contiguous := false, first_sector := 0 } :=
  ⟨⟨by decide, by decide, by decide⟩,
    (c3_check_contiguous c3ConsecDev c3Vol c3MediaConsec (by decide)
        (by decide)).1 4 (by decide) (by decide) (by decide) (by decide),
    (c3_check_contiguous c3Dev c3Vol c3MediaGap (by decide)
        (by decide)).2 12 100 (by decide) (by decide) (by decide) (by decide)
      (by decide) (by decide) (by decide)⟩

/-- The contiguous-read loop does nothing once the request is empty. -/
theorem crLoop_sz_zero (dev : SDCard) (fs fsz off fuel : Nat) :
    crLoop dev fs fsz off 0 fuel = (.ok, [], []) := by
  cases fuel with
  | zero => rfl
  | succ f => rw [crLoop, if_pos (Or.inl rfl)]

/-- Every device read issued by the contiguous-read loop transfers at
most `MAX_MULTIBLOCK_COUNT = 16` blocks. -/
theorem crLoop_blocks_le (dev : SDCard) (fs fsz : Nat) :
    ∀ fuel off sz op, op ∈ (crLoop dev fs fsz off sz fuel).2.2 →
      sdOpBlocks op ≤ 16 := by
  intro fuel
  induction fuel with
  | zero => intro off sz op h; simp [crLoop] at h
  | succ f ih =>
    intro off sz op hop
    rw [crLoop] at hop
    by_cases h1 : sz = 0 ∨ fsz ≤ off
    · rw [if_pos h1] at hop
      simp at hop
    · rw [if_neg h1] at hop
      dsimp only at hop
      by_cases h2 : off % 512 ≠ 0 ∨ sz < 512
      · rw [if_pos h2] at hop
        by_cases h3 : dev.fail (u32 (fs + off / 512)) = true
        · rw [if_pos h3] at hop
          simp only [List.mem_singleton] at hop
          subst hop
          simp [sdOpBlocks]
        · rw [if_neg h3] at hop
          dsimp only at hop
          simp only [List.mem_cons] at hop
          rcases hop with h | h
          · subst h; simp [sdOpBlocks]
          · exact ih _ _ op h
      · rw [if_neg h2] at hop
        try dsimp only at hop
        by_cases h4 : 1 < min (min (sz / 512) ((fsz - off) / 512)) 16
        · rw [if_pos h4] at hop
          by_cases h5 : sdMultiFail dev (u32 (fs + off / 512))
              (min (min (sz / 512) ((fsz - off) / 512)) 16) = true
          · rw [if_pos h5] at hop
            simp only [List.mem_singleton] at hop
            subst hop
            simp only [sdOpBlocks]
            omega
          · rw [if_neg h5] at hop
            dsimp only at hop
            simp only [List.mem_cons] at hop
            rcases hop with h | h
            · subst h
              simp only [sdOpBlocks]
              omega
            · exact ih _ _ op h
        · rw [if_neg h4] at hop
          by_cases h6 : dev.fail (u32 (fs + off / 512)) = true
          · rw [if_pos h6] at hop
            simp only [List.mem_singleton] at hop
            subst hop
            simp [sdOpBlocks]
          · rw [if_neg h6] at hop
            dsimp only at hop
            simp only [List.mem_cons] at hop
            rcases hop with h | h
            · subst h; simp [sdOpBlocks]
            · exact ih _ _ op h

/-- One aligned multi-block iteration of the contiguous-read loop:
when the offset is block-aligned and the run length computes to
`k ≥ 2` and the multi-block read succeeds, the loop emits that read
and recurses past `k` blocks. -/
theorem crLoop_multi_step (dev : SDCard) (fs fsz off sz fuel k : Nat)
    (hf : 1 ≤ fuel) (hso : off % 512 = 0) (h2k : 2 ≤ k)
    (hkeq : min (min (sz / 512) ((fsz - off) / 512)) 16 = k)
    (hok : sdMultiFail dev (u32 (fs + off / 512)) k = false) :
    crLoop dev fs fsz off sz fuel =
      ((crLoop dev fs fsz (off + k * 512) (sz - k * 512) (fuel - 1)).1,
        (List.range (k * 512)).map
          (fun j => dev.data (u32 (fs + off / 512) + j / 512) (j % 512)) ++
          (crLoop dev fs fsz (off + k * 512) (sz - k * 512) (fuel - 1)).2.1,
        .multi (u32 (fs + off / 512)) k ::
          (crLoop dev fs fsz (off + k * 512) (sz - k * 512) (fuel - 1)).2.2) := by
  obtain ⟨f, rfl⟩ : ∃ f, fuel = f + 1 := ⟨fuel - 1, by omega⟩
  have hsz : 512 * k ≤ sz := by omega
  have havl : 512 * k ≤ fsz - off := by omega
  rw [crLoop, if_neg (by omega)]
  dsimp only
  rw [if_neg (by omega), hkeq, if_pos (by omega), if_neg (by simp [hok])]
  try dsimp only
  rw [Nat.add_sub_cancel]

/-- `fileBytes` splits at any interior offset. -/
theorem fileBytes_append (dev : SDCard) (fs off a b : Nat) :
    fileBytes dev fs off (a + b) =
      fileBytes dev fs off a ++ fileBytes dev fs (off + a) b := by
  unfold fileBytes
  rw [List.range_add, List.map_append, List.map_map]
  congr 1
  apply List.map_congr_left
  intro q _
  simp only [Function.comp]
  rw [← Nat.add_assoc]

/-- The bytes a `k`-block aligned device read delivers are the file's
bytes at the corresponding offsets. -/
theorem chunk_eq_fileBytes (dev : SDCard) (fs off k : Nat)
    (hso : off % 512 = 0) (hsec : fs + off / 512 < 4294967296) :
    (List.range (k * 512)).map
      (fun j => dev.data (u32 (fs + off / 512) + j / 512) (j % 512)) =
      fileBytes dev fs off (k * 512) := by
  unfold fileBytes
  apply List.map_congr_left
  intro j _
  rw [u32_eq_of_lt hsec,
    show fs + off / 512 + j / 512 = fs + (off + j) / 512 from by omega,
    show j % 512 = (off + j) % 512 from by omega]

/-- On an aligned whole-block request the first device read the
contiguous loop issues covers `k = min(sz/512, (fsz-off)/512, 16)`
blocks: a multi-block read when `k ≥ 2`, a single-block read when
`k = 1`. -/
theorem crLoop_first_op (dev : SDCard) (fs fsz off sz fuel : Nat)
    (hf : 1 ≤ fuel) (hso : off % 512 = 0) (hsz : 512 ≤ sz)
    (hin : off + 512 ≤ fsz) :
    (2 ≤ min (min (sz / 512) ((fsz - off) / 512)) 16 →
      ∃ rest, (crLoop dev fs fsz off sz fuel).2.2 =
        .multi (u32 (fs + off / 512))
          (min (min (sz / 512) ((fsz - off) / 512)) 16) :: rest) ∧
    (min (min (sz / 512) ((fsz - off) / 512)) 16 = 1 →
      ∃ rest, (crLoop dev fs fsz off sz fuel).2.2 =
        .single (u32 (fs + off / 512)) :: rest) := by
  obtain ⟨f, rfl⟩ : ∃ f, fuel = f + 1 := ⟨fuel - 1, by omega⟩
  rw [crLoop, if_neg (by omega)]
  dsimp only
  rw [if_neg (by omega)]
  constructor
  · intro h2k
    rw [if_pos (by omega)]
    by_cases h5 : sdMultiFail dev (u32 (fs + off / 512))
        (min (min (sz / 512) ((fsz - off) / 512)) 16) = true
    · rw [if_pos h5]
      exact ⟨[], rfl⟩
    · rw [if_neg h5]
      exact ⟨_, rfl⟩
  · intro h1k
    rw [if_neg (by omega)]
    by_cases h6 : dev.fail (u32 (fs + off / 512)) = true
    · rw [if_pos h6]
      exact ⟨[], rfl⟩
    · rw [if_neg h6]
      exact ⟨_, rfl⟩

/-- C6: on the contiguous fast path (`Media_ReadAtContiguous`):
(1) every device read is at most `MAX_MULTIBLOCK = 16` blocks;
(2) an aligned whole-block request starts with a read of
`k = min(n/512, (size−off)/512, 16)` blocks — multi-block iff `k ≥ 2`,
single-block iff `k = 1`;
(3) an aligned request of 40 blocks inside the file, with the device
healthy on those sectors (and the sector numbers not wrapping uint32),
performs exactly 3 device reads of 16, 16 and 8 blocks and delivers
exactly the file's bytes at those offsets, in order. -/
theorem c6_contiguous_fast_path (dev : SDCard) (media : MediaFile) :
    (∀ off sz op, op ∈ (Media_ReadAtContiguous dev media off sz).2.2 →
      sdOpBlocks op ≤ 16) ∧
    (∀ off sz, off % 512 = 0 → 512 ≤ sz → off + 512 ≤ media.file_size →
      (2 ≤ min (min (sz / 512) ((media.file_size - off) / 512)) 16 →
        ∃ rest, (Media_ReadAtContiguous dev media off sz).2.2 =
          .multi (u32 (media.first_sector + off / 512))
            (min (min (sz / 512) ((media.file_size - off) / 512)) 16) :: rest) ∧
      (min (min (sz / 512) ((media.file_size - off) / 512)) 16 = 1 →
        ∃ rest, (Media_ReadAtContiguous dev media off sz).2.2 =
          .single (u32 (media.first_sector + off / 512)) :: rest)) ∧
    (∀ off, off % 512 = 0 → off + 40 * 512 ≤ media.file_size →
      media.first_sector + off / 512 + 40 < 4294967296 →
      (∀ i, i < 40 →
        dev.fail (media.first_sector + off / 512 + i) = false) →
      Media_ReadAtContiguous dev media off (40 * 512) =
        (.ok, fileBytes dev media.first_sector off (40 * 512),
          [.multi (media.first_sector + off / 512) 16,
            .multi (media.first_sector + off / 512 + 16) 16,
            .multi (media.first_sector + off / 512 + 32) 8])) := by
  refine ⟨?_, ?_, ?_⟩
  · intro off sz op hop
    exact crLoop_blocks_le dev media.first_sector media.file_size (sz + 1)
      off sz op hop
  · intro off sz hso hsz hin
    exact crLoop_first_op dev media.first_sector media.file_size off sz
      (sz + 1) (by omega) hso hsz hin
  · intro off hso hin hsec hfail
    have hu1 : u32 (media.first_sector + off / 512) =
        media.first_sector + off / 512 := u32_eq_of_lt (by omega)
    have hu2 : u32 (media.first_sector + (off + 16 * 512) / 512) =
        media.first_sector + off / 512 + 16 := by
      rw [show media.first_sector + (off + 16 * 512) / 512 =
          media.first_sector + off / 512 + 16 from by omega]
      exact u32_eq_of_lt (by omega)
    have hu3 : u32 (media.first_sector + (off + 16 * 512 + 16 * 512) / 512) =
        media.first_sector + off / 512 + 32 := by
      rw [show media.first_sector + (off + 16 * 512 + 16 * 512) / 512 =
          media.first_sector + off / 512 + 32 from by omega]
      exact u32_eq_of_lt (by omega)
    have hok1 : sdMultiFail dev (u32 (media.first_sector + off / 512)) 16 =
        false := by
      rw [hu1]
      simp only [sdMultiFail, List.any_eq_false, List.mem_range]
      intro i hi
      simp [hfail i (by omega)]
    have hok2 : sdMultiFail dev
        (u32 (media.first_sector + (off + 16 * 512) / 512)) 16 = false := by
      rw [hu2]
      simp only [sdMultiFail, List.any_eq_false, List.mem_range]
      intro i hi
      rw [show media.first_sector + off / 512 + 16 + i =
          media.first_sector + off / 512 + (16 + i) from by omega]
      simp [hfail (16 + i) (by omega)]
    have hok3 : sdMultiFail dev
        (u32 (media.first_sector + (off + 16 * 512 + 16 * 512) / 512)) 8 =
        false := by
      rw [hu3]
      simp only [sdMultiFail, List.any_eq_false, List.mem_range]
      intro i hi
      rw [show media.first_sector + off / 512 + 32 + i =
          media.first_sector + off / 512 + (32 + i) from by omega]
      simp [hfail (32 + i) (by omega)]
    unfold Media_ReadAtContiguous
    rw [crLoop_multi_step dev media.first_sector media.file_size off
      (40 * 512) (40 * 512 + 1) 16 (by norm_num) hso (by norm_num)
      (by omega) hok1]
    rw [crLoop_multi_step dev media.first_sector media.file_size
      (off + 16 * 512) (40 * 512 - 16 * 512) (40 * 512 + 1 - 1) 16
      (by norm_num) (by omega) (by norm_num) (by omega) hok2]
    rw [crLoop_multi_step dev media.first_sector media.file_size
      (off + 16 * 512 + 16 * 512) (40 * 512 - 16 * 512 - 16 * 512)
      (40 * 512 + 1 - 1 - 1) 8 (by norm_num) (by omega) (by norm_num)
      (by omega) hok3]
    rw [show (40 * 512 - 16 * 512 - 16 * 512 - 8 * 512 : Nat) = 0 from
      by norm_num]
    rw [crLoop_sz_zero]
    rw [chunk_eq_fileBytes dev media.first_sector off 16 hso (by omega),
      chunk_eq_fileBytes dev media.first_sector (off + 16 * 512) 16
        (by omega) (by omega),
      chunk_eq_fileBytes dev media.first_sector (off + 16 * 512 + 16 * 512) 8
        (by omega) (by omega)]
    rw [hu1, hu2, hu3]
    rw [show (40 * 512 : Nat) = 16 * 512 + (16 * 512 + 8 * 512) from
      by norm_num]
    rw [fileBytes_append dev media.first_sector off (16 * 512)
      (16 * 512 + 8 * 512),
      fileBytes_append dev media.first_sector (off + 16 * 512) (16 * 512)
      (8 * 512)]
    simp [List.append_assoc]

/-- C6 witness: the theorem applied at a concrete contiguous 2 MiB file
on an always-healthy all-zero device: the ≤16-blocks bound at the
single-block call `(off = 0, sz = 512)` and its actually-issued read,
and the 40-block scenario at `off = 512`. -/
theorem c6_contiguous_fast_path_witness :
    (SDOp.single 100 ∈ (Media_ReadAtContiguous zeroDev c6Media 0 512).2.2 ∧
      sdOpBlocks (SDOp.single 100) ≤ 16) ∧
    ((0 : Nat) % 512 = 0 ∧ (512 : Nat) ≤ 512 ∧ 0 + 512 ≤ c6Media.file_size ∧
      min (min (512 / 512) ((c6Media.file_size - 0) / 512)) 16 = 1 ∧
      ∃ rest, (Media_ReadAtContiguous zeroDev c6Media 0 512).2.2 =
        .single (u32 (c6Media.first_sector + 0 / 512)) :: rest) ∧
    ((512 : Nat) % 512 = 0 ∧ 512 + 40 * 512 ≤ c6Media.file_size ∧
      c6Media.first_sector + 512 / 512 + 40 < 4294967296 ∧
      Media_ReadAtContiguous zeroDev c6Media 512 (40 * 512) =
        (.ok, fileBytes zeroDev c6Media.first_sector 512 (40 * 512),
          [.multi (c6Media.first_sector + 512 / 512) 16,
            .multi (c6Media.first_sector + 512 / 512 + 16) 16,
            .multi (c6Media.first_sector + 512 / 512 + 32) 8])) :=
  ⟨⟨by decide,
      (c6_contiguous_fast_path zeroDev c6Media).1 0 512 (.single 100)
        (by decide)⟩,
    ⟨by decide, by decide, by decide, by decide,
      ((c6_contiguous_fast_path zeroDev c6Media).2.1 0 512 (by decide)
        (by decide) (by decide)).2 (by decide)⟩,
    ⟨by decide, by decide, by decide,
      (c6_contiguous_fast_path zeroDev c6Media).2.2 512 (by decide)
        (by decide) (by decide) (fun i _ => rfl)⟩⟩

end BadApple
